import Mathlib

/-!
Shallow embedding of the consent-state engine of the Vonage Opt-out Manager
(`src/server.js`) and verification of the frozen claims about it.

Strings are modelled by Lean `String`; the JavaScript string operations used by
the source (`toUpperCase`, `trim`, `split(',')`, `startsWith`, `replace` with a
digit-keeping regex) are modelled by structurally recursive functions over the
underlying character lists so that every definition evaluates by kernel
reduction.  Timestamps (`new Date().toISOString()` values, compared by `Date`
ordering) are modelled as integers (epoch milliseconds); date parsing is a
collaborator, the comparisons are what the code decides on.  JavaScript `null`
and `undefined` arguments are modelled either with `Option` or, where the code
treats absent and empty-string fields identically (falsiness checks), by `""`.
-/

namespace OptOut

/-- Model of JavaScript `String.prototype.toUpperCase` (ASCII range, which is
all the engine's own comparisons depend on). -/
def jsToUpper (s : String) : String := String.mk (s.data.map Char.toUpper)

/-- Model of JavaScript `String.prototype.trim`: drop leading and trailing
whitespace. -/
def jsTrim (s : String) : String :=
  String.mk (((s.data.dropWhile Char.isWhitespace).reverse.dropWhile Char.isWhitespace).reverse)

/-- Helper for `jsSplitCommas`: accumulates the current piece (reversed). -/
def splitCommasAux : List Char → List Char → List String
  | [], acc => [String.mk acc.reverse]
  | c :: rest, acc =>
      if c = ',' then String.mk acc.reverse :: splitCommasAux rest []
      else splitCommasAux rest (c :: acc)

/-- Model of JavaScript `s.split(',')`: split on every comma; `""` yields
`[""]`, consecutive commas yield empty pieces, exactly as in JS. -/
def jsSplitCommas (s : String) : List String := splitCommasAux s.data []

/-- Character-list core of `jsStartsWith`. -/
def startsWithList : List Char → List Char → Bool
  | _, [] => true
  | [], _ :: _ => false
  | c :: cs, p :: ps => c = p && startsWithList cs ps

/-- Model of JavaScript `t.startsWith(p)`. -/
def jsStartsWith (t p : String) : Bool := startsWithList t.data p.data

/-- From `server.js` lines 852-855:
`function normalizeNumber(num) { if (!num) return ''; return num.replace(/[^0-9]/g, ''); }`
for a string argument (`!num` is true for `''`). -/
def normalizeNumber (num : String) : String :=
  if num = "" then "" else String.mk (num.data.filter Char.isDigit)

/-- `normalizeNumber` on a possibly-`null`/`undefined` argument: `!num` is true
for both, so they return `''` like the empty string. -/
def normalizeNumberOpt : Option String → String
  | Option.none => ""
  | some s => normalizeNumber s

/-- An element of the persisted opt-out list.  Legacy data may hold bare
strings; entries written by the engine are objects
`{number, configId, originalNumber?}` (`server.js` lines 912, 985, 1047). -/
inductive OptOutEntry where
  | str (s : String)
  | obj (number : String) (configId : String) (originalNumber : Option String)
deriving DecidableEq, Repr

/-- The expression `typeof o === 'string' ? o : o.number` used at every read
site of the opt-out list. -/
def entryNumber : OptOutEntry → String
  | OptOutEntry.str s => s
  | OptOutEntry.obj n _ _ => n

/-- The blocklist membership test the source repeats at every send surface and
store mutation (`server.js` lines 581-584, 608-611, 704-707, 796-799, 913,
983, 1045):
`optouts.some(o => normalizeNumber(typeof o === 'string' ? o : o.number) === cleanTo)`
where `cleanTo` is already normalized. -/
def isBlockedIn (optouts : List OptOutEntry) (cleanTo : String) : Bool :=
  optouts.any (fun o => normalizeNumber (entryNumber o) == cleanTo)

/-- The `findIndex` + `splice(index, 1)` pattern (`server.js` lines 935-938,
1007-1009, 1097-1099): remove the first entry whose normalized number equals
`n`; `Option.none` when no entry matches (`index === -1`). -/
def spliceFirst : List OptOutEntry → String → Option (List OptOutEntry)
  | [], _ => Option.none
  | o :: rest, n =>
      if normalizeNumber (entryNumber o) == n then some rest
      else
        match spliceFirst rest n with
        | some rest2 => some (o :: rest2)
        | Option.none => Option.none

/-- An opt-out rule set (`server.js` lines 373-378): receiving number with its
comma-separated opt-out and opt-in trigger phrases. -/
structure OptOutConfig where
  id : String
  optoutNumber : String
  optoutPhrase : String
  optinPhrase : String
deriving DecidableEq, Repr

/-- A history-log record (`server.js` lines 923-929, 988-993, 1012-1017).
`configId` is absent (`Option.none`) on manual/API entries. -/
structure HistoryEntry where
  number : String
  action : String
  timestamp : Int
  receivedOn : String
  configId : Option String
deriving DecidableEq, Repr

/-- The two shared mutable records the claims are about: the persisted opt-out
list and the history log. -/
structure StoreState where
  optouts : List OptOutEntry
  history : List HistoryEntry
deriving DecidableEq, Repr

/-- From `GET /api/check/:number` (`server.js` lines 577-587): the response
`{number, blocked}` where `number` is the normalized parameter. -/
def apiCheck (optouts : List OptOutEntry) (number : String) : String × Bool :=
  let n := normalizeNumber number
  (n, isBlockedIn optouts n)

/-- From `POST /api/optout` (`server.js` lines 977-998): when no entry matches
the normalized number, push `{number, configId: 'manual', originalNumber}` and
an `optout` history record; otherwise leave both records untouched.  The
response is `{success: true}` in every case. -/
def apiOptout (s : StoreState) (number : String) (now : Int) : StoreState :=
  let normalizedNum := normalizeNumber number
  if isBlockedIn s.optouts normalizedNum then s
  else
    { optouts := s.optouts ++ [OptOutEntry.obj normalizedNum "manual" (some number)],
      history := s.history ++
        [HistoryEntry.mk normalizedNum "optout" now "manual" Option.none] }

/-- From `POST /api/optin` (`server.js` lines 1001-1022): splice out the first
matching entry and push an `optin` history record only when one was found; the
boolean is the `{success: true}` response, returned in every case. -/
def apiOptin (s : StoreState) (number : String) (now : Int) : StoreState × Bool :=
  let normalizedNum := normalizeNumber number
  match spliceFirst s.optouts normalizedNum with
  | some optouts2 =>
      ({ optouts := optouts2,
         history := s.history ++
           [HistoryEntry.mk normalizedNum "optin" now "manual" Option.none] }, true)
  | Option.none => (s, true)

/-- Per-number outcome lists of `POST /api/optin/bulk` (`server.js` lines
1088-1091). -/
structure OptinBulkResults where
  removed : List String
  notFound : List String
deriving DecidableEq, Repr

/-- Loop body of `POST /api/optin/bulk` (`server.js` lines 1093-1110): numbers
normalizing to `''` are skipped (`if (!normalizedNum) continue`); otherwise the
first matching entry is spliced out and recorded under `removed` together with
an `optin` history record, or the number is recorded under `notFound`. -/
def optinBulkStep (now : Int) (acc : StoreState × OptinBulkResults) (number : String) :
    StoreState × OptinBulkResults :=
  let normalizedNum := normalizeNumber number
  if normalizedNum = "" then acc
  else
    match spliceFirst acc.1.optouts normalizedNum with
    | some optouts2 =>
        ({ optouts := optouts2,
           history := acc.1.history ++
             [HistoryEntry.mk normalizedNum "optin" now "api" Option.none] },
         { removed := acc.2.removed ++ [normalizedNum], notFound := acc.2.notFound })
    | Option.none =>
        (acc.1, { removed := acc.2.removed, notFound := acc.2.notFound ++ [normalizedNum] })

/-- `POST /api/optin/bulk` (`server.js` lines 1077-1126).  `Option.none` models
the 400 response for a missing/empty `numbers` array; otherwise the loop runs
and the endpoint responds success with the final state and results. -/
def apiOptinBulk (s : StoreState) (numbers : List String) (now : Int) :
    Option (StoreState × OptinBulkResults) :=
  if numbers = [] then Option.none
  else some (numbers.foldl (optinBulkStep now) (s, OptinBulkResults.mk [] []))

/-- The credential pair used by the send surfaces; `''` models an unset key
(the code gates on falsiness, `server.js` lines 593, 678). -/
structure Credentials where
  apiKey : String
  apiSecret : String
deriving DecidableEq, Repr

/-- Body of `POST /api/send`; `''` models a missing field (the code gates on
`!to || !from || !text`, `server.js` line 599). -/
structure SendBody where
  toN : String
  fromN : String
  text : String
deriving DecidableEq, Repr

/-- What `POST /api/send` (`server.js` lines 590-661) does up to the transport
boundary: a 400 response, the 403 opt-out rejection (the fetch is never
reached), or the transport invocation with the arguments the code passes
(`to: cleanTo, from: from.replace(/[^0-9]/g, ''), text`). -/
inductive ApiSendResult where
  | badRequest (error : String)
  | optedOut (error : String) (toN : String)
  | transportSend (toN : String) (fromN : String) (text : String)
deriving DecidableEq, Repr

/-- `POST /api/send` (`server.js` lines 590-620): credential check, field
check, normalize `to`, blocklist check, then transport. -/
def apiSend (creds : Credentials) (optouts : List OptOutEntry) (b : SendBody) : ApiSendResult :=
  if creds.apiKey = "" ∨ creds.apiSecret = "" then
    ApiSendResult.badRequest "API credentials not configured"
  else if b.toN = "" ∨ b.fromN = "" ∨ b.text = "" then
    ApiSendResult.badRequest "Missing required fields: to, from, text"
  else
    let cleanTo := normalizeNumber b.toN
    if isBlockedIn optouts cleanTo then
      ApiSendResult.optedOut "Number is opted out" cleanTo
    else
      ApiSendResult.transportSend cleanTo (String.mk (b.fromN.data.filter Char.isDigit)) b.text

/-- One element of a Vonage `messages` array, with the fields the code reads
or fabricates (`to`, `status`, `message-id`, `error-text`). -/
structure VonageMsg where
  toN : Option String
  status : String
  messageId : Option String
  errorText : Option String
deriving DecidableEq, Repr

/-- Body of `POST /sms/json`; `''` models missing fields (falsiness checks at
`server.js` lines 678, 689). -/
structure SmsJsonBody where
  api_key : String
  api_secret : String
  toN : String
  fromN : String
  text : String
deriving DecidableEq, Repr

/-- What `POST /sms/json` (`server.js` lines 667-760) does up to the transport
boundary: an immediate Vonage-format envelope, or the forward to the real API
(`to: cleanTo, from, text` — `from` is passed unmodified on this surface). -/
inductive SmsJsonResult where
  | envelope (messageCount : String) (messages : List VonageMsg)
  | forward (toN : String) (fromN : String) (text : String)
deriving DecidableEq, Repr

/-- `POST /sms/json` (`server.js` lines 667-734): request credentials fall back
to configured ones, missing credentials and missing fields yield status-`'2'`
envelopes, a blocked recipient yields the synthetic status-`'99'` envelope, and
otherwise the request is forwarded to the transport. -/
def smsJson (configured : Credentials) (optouts : List OptOutEntry) (b : SmsJsonBody) :
    SmsJsonResult :=
  let apiKey := if b.api_key = "" then configured.apiKey else b.api_key
  let apiSecret := if b.api_secret = "" then configured.apiSecret else b.api_secret
  if apiKey = "" ∨ apiSecret = "" then
    SmsJsonResult.envelope "1"
      [VonageMsg.mk Option.none "2" Option.none (some "Missing API credentials")]
  else if b.toN = "" ∨ b.fromN = "" ∨ b.text = "" then
    SmsJsonResult.envelope "1"
      [VonageMsg.mk Option.none "2" Option.none (some "Missing required fields: to, from, text")]
  else
    let cleanTo := normalizeNumber b.toN
    if isBlockedIn optouts cleanTo then
      SmsJsonResult.envelope "1"
        [VonageMsg.mk (some cleanTo) "99" Option.none (some "Number is opted out")]
    else
      SmsJsonResult.forward cleanTo b.fromN b.text

/-- Result of one transport invocation as the bulk loop consumes it: the parsed
JSON (`ok` with its `messages` array, `[]` also covering a missing array) or a
thrown fetch error (`error`). -/
inductive TransportOutcome where
  | ok (messages : List VonageMsg)
  | error (message : String)
deriving DecidableEq, Repr

/-- One `failed` item of the bulk send response (`to`, `error`, optional
`errorCode`); `error` is `Option` because `msg['error-text']` may be absent. -/
structure FailedItem where
  toN : String
  error : Option String
  errorCode : Option String
deriving DecidableEq, Repr

/-- Accumulated state of the bulk send loop: the three result partitions
(`server.js` lines 781-785) plus the list of recipients for which the
transport was actually invoked (the fetch at line 808). -/
structure BulkState where
  sent : List (String × Option String)
  blocked : List (String × String)
  failed : List FailedItem
  calls : List String
deriving DecidableEq, Repr

/-- Loop body of `POST /api/send/bulk` (`server.js` lines 787-838): an
empty-normalizing recipient fails with `'Invalid number'` before any other
check; a blocked recipient is recorded without a transport call; otherwise the
transport is invoked and its result sorted into `sent` or `failed`. -/
def bulkStep (transport : String → TransportOutcome) (optouts : List OptOutEntry)
    (st : BulkState) (recipient : String) : BulkState :=
  let cleanTo := normalizeNumber recipient
  if cleanTo = "" then
    { st with failed := st.failed ++ [FailedItem.mk recipient (some "Invalid number") Option.none] }
  else if isBlockedIn optouts cleanTo then
    { st with blocked := st.blocked ++ [(cleanTo, "opted-out")] }
  else
    match transport cleanTo with
    | TransportOutcome.ok (msg :: _) =>
        if msg.status == "0" then
          { st with sent := st.sent ++ [(cleanTo, msg.messageId)],
                    calls := st.calls ++ [cleanTo] }
        else
          { st with failed := st.failed ++ [FailedItem.mk cleanTo msg.errorText (some msg.status)],
                    calls := st.calls ++ [cleanTo] }
    | TransportOutcome.ok [] =>
        { st with failed := st.failed ++ [FailedItem.mk cleanTo (some "Unexpected response") Option.none],
                  calls := st.calls ++ [cleanTo] }
    | TransportOutcome.error m =>
        { st with failed := st.failed ++ [FailedItem.mk cleanTo (some m) Option.none],
                  calls := st.calls ++ [cleanTo] }

/-- The recipient loop of `POST /api/send/bulk` over an initially empty result
set (`server.js` lines 781-838). -/
def bulkSend (transport : String → TransportOutcome) (optouts : List OptOutEntry)
    (recipients : List String) : BulkState :=
  recipients.foldl (bulkStep transport optouts) (BulkState.mk [] [] [] [])

/-- The `summary` object of the bulk send response (`server.js` lines 840-848):
`{total, sent, blocked, failed}`. -/
def bulkSummary (recipients : List String) (st : BulkState) : Nat × Nat × Nat × Nat :=
  (recipients.length, st.sent.length, st.blocked.length, st.failed.length)

/-- An inbound webhook payload (`server.js` lines 870-872).  The handler treats
an absent field and a present-but-empty one identically (falsiness fallbacks
and guards), so fields are plain strings with `""` for absent. -/
structure InboundPayload where
  msisdn : String
  fromField : String
  toN : String
  text : String
  message : String
deriving DecidableEq, Repr

/-- `const from = data.msisdn || data.from` (`server.js` line 870). -/
def inboundFrom (p : InboundPayload) : String :=
  if p.msisdn = "" then p.fromField else p.msisdn

/-- `const text = (data.text || data.message || '').trim().toUpperCase()`
(`server.js` line 872). -/
def inboundText (p : InboundPayload) : String :=
  jsToUpper (jsTrim (if p.text = "" then p.message else p.text))

/-- `matchingConfig.optoutPhrase.toUpperCase().split(',').map(p => p.trim())`
(`server.js` line 902). -/
def optoutPhrasesOf (c : OptOutConfig) : List String :=
  (jsSplitCommas (jsToUpper c.optoutPhrase)).map jsTrim

/-- `matchingConfig.optinPhrase.toUpperCase().split(',').map(p => p.trim())`
(`server.js` line 903). -/
def optinPhrasesOf (c : OptOutConfig) : List String :=
  (jsSplitCommas (jsToUpper c.optinPhrase)).map jsTrim

/-- The opt-out branch of the inbound handler (`server.js` lines 910-930): add
`{number, configId}` unless an entry already matches, and always push an
`optout` history record tagged with the receiving number and config id. -/
def inboundOptoutUpdate (s : StoreState) (normalizedFrom : String) (cfg : OptOutConfig)
    (toV : String) (now : Int) : StoreState :=
  let optouts2 :=
    if isBlockedIn s.optouts normalizedFrom then s.optouts
    else s.optouts ++ [OptOutEntry.obj normalizedFrom cfg.id Option.none]
  { optouts := optouts2,
    history := s.history ++ [HistoryEntry.mk normalizedFrom "optout" now toV (some cfg.id)] }

/-- The opt-in branch of the inbound handler (`server.js` lines 933-950):
splice out the first matching entry when present, and always push an `optin`
history record. -/
def inboundOptinUpdate (s : StoreState) (normalizedFrom : String) (cfg : OptOutConfig)
    (toV : String) (now : Int) : StoreState :=
  let optouts2 :=
    match spliceFirst s.optouts normalizedFrom with
    | some l => l
    | Option.none => s.optouts
  { optouts := optouts2,
    history := s.history ++ [HistoryEntry.mk normalizedFrom "optin" now toV (some cfg.id)] }

/-- `handleInboundSMS` (`server.js` lines 858-956): extract the fields, discard
on missing `from`/`text`, find the config whose normalized `optoutNumber`
equals the normalized destination, test the text against the opt-out phrases
then the opt-in phrases, and mutate accordingly.  Every path answers the
webhook with a bare 200. -/
def handleInboundSMS (configs : List OptOutConfig) (s : StoreState) (p : InboundPayload)
    (now : Int) : StoreState × Nat :=
  if inboundFrom p = "" ∨ inboundText p = "" then (s, 200)
  else
    match configs.find? (fun c => normalizeNumber c.optoutNumber == normalizeNumber p.toN) with
    | Option.none => (s, 200)
    | some matchingConfig =>
        if (optoutPhrasesOf matchingConfig).any
            (fun phrase => inboundText p == phrase
              || jsStartsWith (inboundText p) (phrase ++ " ")) then
          (inboundOptoutUpdate s (normalizeNumber (inboundFrom p)) matchingConfig p.toN now, 200)
        else if (optinPhrasesOf matchingConfig).any
            (fun phrase => inboundText p == phrase
              || jsStartsWith (inboundText p) (phrase ++ " ")) then
          (inboundOptinUpdate s (normalizeNumber (inboundFrom p)) matchingConfig p.toN now, 200)
        else (s, 200)

/-- `GET /api/stats` (`server.js` lines 1203-1216): filter the history by
`new Date(item.timestamp) >= now - 24h`, then count `optin` and `optout`
entries among what remains. -/
def apiStats (history : List HistoryEntry) (now : Int) : Nat × Nat :=
  let twentyFourHoursAgo := now - 24 * 60 * 60 * 1000
  let recentHistory := history.filter (fun item => decide (twentyFourHoursAgo ≤ item.timestamp))
  ((recentHistory.filter (fun item => item.action == "optin")).length,
   (recentHistory.filter (fun item => item.action == "optout")).length)

/-- Descending-timestamp ordering used to model the comparator
`(a, b) => new Date(b.timestamp) - new Date(a.timestamp)` (`server.js` line
1240): `a` sorts no later than `b` exactly when `b.timestamp ≤ a.timestamp`. -/
def histGE (a b : HistoryEntry) : Prop := b.timestamp ≤ a.timestamp

instance : DecidableRel histGE := fun a b => inferInstanceAs (Decidable (b.timestamp ≤ a.timestamp))

instance : IsTotal HistoryEntry histGE :=
  ⟨fun a b => le_total b.timestamp a.timestamp⟩

instance : IsTrans HistoryEntry histGE :=
  ⟨fun _ _ _ h1 h2 => le_trans h2 h1⟩

/-- `start.setHours(0, 0, 0, 0)` on a date of day `d`: midnight of that day,
with dates modelled at day granularity (`d` days since the epoch). -/
def dayStartMs (d : Int) : Int := d * 86400000

/-- `end.setHours(23, 59, 59, 999)` on a date of day `d`: the last millisecond
of that day. -/
def dayEndMs (d : Int) : Int := d * 86400000 + 86399999

/-- `GET /api/history` (`server.js` lines 1219-1243): filter by floored
`startDate` (when truthy), ceilinged `endDate` (when truthy), and by `action`
when it is truthy and not `'all'`; then sort newest-first.  JavaScript
`Array.prototype.sort` with a numeric comparator is a stable sort, modelled by
insertion sort on `histGE`. -/
def apiHistory (history : List HistoryEntry) (startDate endDate : Option Int)
    (action : Option String) : List HistoryEntry :=
  let h1 :=
    match startDate with
    | Option.none => history
    | some d => history.filter (fun item => decide (dayStartMs d ≤ item.timestamp))
  let h2 :=
    match endDate with
    | Option.none => h1
    | some d => h1.filter (fun item => decide (item.timestamp ≤ dayEndMs d))
  let h3 :=
    match action with
    | Option.none => h2
    | some a => if a ≠ "" ∧ a ≠ "all" then h2.filter (fun item => item.action == a) else h2
  List.insertionSort histGE h3

/-- Spec-side classification verdict (`OPTOUT`/`OPTIN`/`NONE`). -/
inductive Classification where
  | optout
  | optin
  | noMatch
deriving DecidableEq, Repr

/-- Modelled from the spec's words (claim C2): the phrase lists are the config
field "uppercased, split on commas, each piece trimmed". -/
def splitPhrasesSpec (field : String) : List String :=
  (jsSplitCommas (jsToUpper field)).map jsTrim

/-- Modelled from the spec's words (claim C2): a phrase `P` matches text `T`
iff `T == P` or `T` starts with `P + " "`. -/
def phraseMatchesSpec (T P : String) : Bool :=
  T == P || jsStartsWith T (P ++ " ")

/-- Modelled from the spec's words (claim C2): `OPTOUT` if some opt-out phrase
matches the (already trimmed and uppercased) text `T`, else `OPTIN` if some
opt-in phrase matches, else `NONE`. -/
def classifySpec (c : OptOutConfig) (T : String) : Classification :=
  if (splitPhrasesSpec c.optoutPhrase).any (phraseMatchesSpec T) then Classification.optout
  else if (splitPhrasesSpec c.optinPhrase).any (phraseMatchesSpec T) then Classification.optin
  else Classification.noMatch

/-- Number of stored entries whose normalized number equals `n` ("entry whose
normalized number equals normalize(N)" in claim C3). -/
def matchCount (optouts : List OptOutEntry) (n : String) : Nat :=
  optouts.countP (fun o => normalizeNumber (entryNumber o) == n)

/-- Sample rule set used by concrete witnesses. -/
def cfgStop : OptOutConfig := OptOutConfig.mk "cfg1" "447418317717" "STOP" "START"

/-- Sample inbound payload: an opt-out command with trailing free text. -/
def payloadStop : InboundPayload :=
  InboundPayload.mk "447700900000" "" "447418317717" "stop please" ""

/-- Sample inbound payload: an opt-in command. -/
def payloadStart : InboundPayload :=
  InboundPayload.mk "447700900000" "" "447418317717" "start" ""

/-- Sample inbound payload: destination matching no configured number. -/
def payloadUnmatched : InboundPayload :=
  InboundPayload.mk "447700900000" "" "999" "STOP" ""

/-- Sample transport collaborator answering success for every recipient. -/
def okTransport : String → TransportOutcome :=
  fun _ => TransportOutcome.ok [VonageMsg.mk Option.none "0" (some "msg-id-1") Option.none]

/-- Sample history entry dated one hour after epoch. -/
def futureEntry : HistoryEntry := HistoryEntry.mk "447700900000" "optin" 3600000 "manual" Option.none

/-- Sample history entry used by the history-query counterexample. -/
def histEntry1 : HistoryEntry := HistoryEntry.mk "447700900000" "optin" 5 "manual" Option.none

/-! ## Supporting lemmas -/

theorem normalizeNumber_eq_filter (x : String) :
    normalizeNumber x = String.mk (x.data.filter Char.isDigit) := by
  by_cases h : x = ""
  · subst h; rfl
  · simp [normalizeNumber, h]

theorem normalizeNumber_idem (x : String) :
    normalizeNumber (normalizeNumber x) = normalizeNumber x := by
  rw [normalizeNumber_eq_filter x, normalizeNumber_eq_filter (String.mk (x.data.filter Char.isDigit))]
  show String.mk ((x.data.filter Char.isDigit).filter Char.isDigit) = _
  rw [List.filter_filter]
  simp

theorem isBlockedIn_true_iff (optouts : List OptOutEntry) (n : String) :
    isBlockedIn optouts n = true ↔ 0 < matchCount optouts n := by
  simp [isBlockedIn, matchCount, List.any_eq_true, List.countP_pos_iff]

theorem isBlockedIn_false_iff (optouts : List OptOutEntry) (n : String) :
    isBlockedIn optouts n = false ↔ matchCount optouts n = 0 := by
  constructor
  · intro h
    rcases Nat.eq_zero_or_pos (matchCount optouts n) with h0 | hpos
    · exact h0
    · have hb := (isBlockedIn_true_iff optouts n).mpr hpos
      rw [h] at hb
      cases hb
  · intro h
    cases hb : isBlockedIn optouts n
    · rfl
    · have := (isBlockedIn_true_iff optouts n).mp hb
      omega

theorem spliceFirst_none_iff (l : List OptOutEntry) (n : String) :
    spliceFirst l n = Option.none
      ↔ l.any (fun o => normalizeNumber (entryNumber o) == n) = false := by
  induction l with
  | nil => simp [spliceFirst]
  | cons o rest ih =>
    by_cases h : (normalizeNumber (entryNumber o) == n) = true
    · simp [spliceFirst, h]
    · rcases hs : spliceFirst rest n with _ | r2
      · simp only [spliceFirst, h, if_false, hs]
        simp only [hs, true_iff] at ih
        simp [List.any_cons, h, ih]
      · simp only [spliceFirst, h, if_false, hs]
        simp only [hs] at ih
        simp only [List.any_cons]
        constructor
        · intro hx; cases hx
        · intro hx
          rw [Bool.or_eq_false_iff] at hx
          have := ih.mpr hx.2
          cases this

theorem spliceFirst_some_matchCount (l : List OptOutEntry) (n : String) (l2 : List OptOutEntry)
    (h : spliceFirst l n = some l2) : matchCount l2 n + 1 = matchCount l n := by
  induction l generalizing l2 with
  | nil => simp [spliceFirst] at h
  | cons o rest ih =>
    by_cases ho : (normalizeNumber (entryNumber o) == n) = true
    · simp only [spliceFirst, ho, if_true] at h
      cases h
      simp [matchCount, List.countP_cons, ho]
    · rcases hs : spliceFirst rest n with _ | r2
      · simp only [spliceFirst, ho, if_false, hs] at h
        cases h
      · simp only [spliceFirst, ho, if_false, hs] at h
        cases h
        have := ih r2 hs
        simp only [matchCount, List.countP_cons, ho] at *
        omega

theorem matchCount_append (l1 l2 : List OptOutEntry) (n : String) :
    matchCount (l1 ++ l2) n = matchCount l1 n + matchCount l2 n := by
  simp [matchCount, List.countP_append]

theorem selfEntryMatch (N cid : String) (orig : Option String) :
    (normalizeNumber (entryNumber (OptOutEntry.obj (normalizeNumber N) cid orig))
      == normalizeNumber N) = true := by
  simp [entryNumber, normalizeNumber_idem]

theorem apiOptout_matchCount (s : StoreState) (N : String) (now : Int)
    (h : matchCount s.optouts (normalizeNumber N) ≤ 1) :
    matchCount (apiOptout s N now).optouts (normalizeNumber N) = 1 := by
  cases hb : isBlockedIn s.optouts (normalizeNumber N) with
  | true =>
    have := (isBlockedIn_true_iff _ _).mp hb
    simp only [apiOptout, hb, if_true]
    omega
  | false =>
    have h0 := (isBlockedIn_false_iff _ _).mp hb
    simp only [apiOptout, hb, Bool.false_eq_true, if_false, matchCount_append]
    rw [h0]
    simp [matchCount, List.countP_cons, selfEntryMatch]

/-! ## Claims -/

/-- Claim C6: `normalizeNumber` returns its input with every non-decimal-digit
character removed, returns the empty string for null/undefined/empty input,
and is idempotent. -/
theorem claim_c6_normalize (x : String) :
    (normalizeNumber x).data = x.data.filter Char.isDigit
    ∧ normalizeNumber "" = ""
    ∧ normalizeNumberOpt Option.none = ""
    ∧ normalizeNumber (normalizeNumber x) = normalizeNumber x := by
  refine ⟨?_, rfl, rfl, normalizeNumber_idem x⟩
  rw [normalizeNumber_eq_filter]

/-- Claim C7 (amended): the 24-hour statistics count exactly the history
entries with the corresponding action whose timestamp is at least `now - 24h`;
there is no upper bound, so future-dated entries are also counted. -/
theorem claim_c7_stats (history : List HistoryEntry) (now : Int) :
    apiStats history now =
      ((history.filter (fun item => (item.action == "optin")
          && decide (now - 24 * 60 * 60 * 1000 ≤ item.timestamp))).length,
       (history.filter (fun item => (item.action == "optout")
          && decide (now - 24 * 60 * 60 * 1000 ≤ item.timestamp))).length) := by
  simp [apiStats, List.filter_filter]

/-- Claim C7 counterexample: at `now = 0`, an `optin` entry dated one hour in
the future lies outside the window `[now-24h, now]`, so the claim says it is
excluded; `GET /api/stats` counts it anyway (its filter has no upper bound). -/
theorem claim_c7_counterexample :
    (apiStats [futureEntry] 0).1 = 1
    ∧ ([futureEntry].filter (fun item => (item.action == "optin")
        && decide ((0:Int) - 86400000 ≤ item.timestamp)
        && decide (item.timestamp ≤ (0:Int)))).length = 0 := by
  exact ⟨rfl, rfl⟩

/-- Claim C3 (amended): for every raw identity `N` and every Consent Store
state in which at most one entry matches `normalize(N)` — an invariant every
store reachable through the engine's own operations satisfies — an add makes
the blocked-check true, a remove makes it false, and adding twice leaves
exactly one matching entry.  (With duplicate matching entries the remove
splices out only the first, so the check can stay true; see the
counterexample.) -/
theorem claim_c3_consent_roundtrip (s : StoreState) (N : String) (now now2 : Int)
    (hdup : matchCount s.optouts (normalizeNumber N) ≤ 1) :
    (apiCheck (apiOptout s N now).optouts N).2 = true
    ∧ (apiCheck ((apiOptin s N now).1).optouts N).2 = false
    ∧ matchCount (apiOptout (apiOptout s N now) N now2).optouts (normalizeNumber N) = 1 := by
  refine ⟨?_, ?_, ?_⟩
  · by_cases hb : isBlockedIn s.optouts (normalizeNumber N) = true
    · simp only [apiOptout, hb, if_true, apiCheck]
    · have hb2 : isBlockedIn s.optouts (normalizeNumber N) = false := by
        cases hx : isBlockedIn s.optouts (normalizeNumber N)
        · rfl
        · exact absurd hx hb
      simp only [apiOptout, hb, if_false, apiCheck]
      simp [isBlockedIn, List.any_append, selfEntryMatch]
  · rcases hs : spliceFirst s.optouts (normalizeNumber N) with _ | l2
    · simp only [apiOptin, hs, apiCheck]
      exact (spliceFirst_none_iff _ _).mp hs
    · have hc := spliceFirst_some_matchCount _ _ _ hs
      simp only [apiOptin, hs, apiCheck]
      exact (isBlockedIn_false_iff _ _).mpr (by omega)
  · have h1 := apiOptout_matchCount s N now hdup
    exact apiOptout_matchCount _ N now2 (by omega)

/-- Claim C3 witness: concrete round trip from the empty store. -/
theorem claim_c3_witness :
    (apiCheck (apiOptout (StoreState.mk [] []) "+44 7700 900000" 0).optouts "+44 7700 900000").2 = true
    ∧ (apiCheck ((apiOptin (StoreState.mk [] []) "+44 7700 900000" 0).1).optouts "+44 7700 900000").2 = false
    ∧ matchCount (apiOptout (apiOptout (StoreState.mk [] []) "+44 7700 900000" 0)
        "+44 7700 900000" 1).optouts (normalizeNumber "+44 7700 900000") = 1 :=
  claim_c3_consent_roundtrip (StoreState.mk [] []) "+44 7700 900000" 0 1 (by decide)

/-- Claim C3 counterexample: with two (legacy string) entries for the same
number in the store, `POST /api/optin` removes only the first, so the
blocked-check still reports `true` afterwards — the claim promises `false` for
every Consent Store state. -/
theorem claim_c3_counterexample :
    (apiCheck ((apiOptin (StoreState.mk [OptOutEntry.str "1", OptOutEntry.str "1"] [])
      "1" 0).1).optouts "1").2 = true := by
  rfl

/-- Claim C2: for an inbound message whose normalized destination matches a
config, the handler's effect is dispatched exactly by the spec's
classification formula — trimmed/uppercased text, comma-split
trimmed/uppercased phrase lists, `T == P` or `T.startsWith(P + " ")`
matching, opt-out checked before opt-in; in particular any matching opt-out
phrase forces the `OPTOUT` verdict (so a phrase in both lists yields
`OPTOUT`). -/
theorem claim_c2_classification (configs : List OptOutConfig) (s : StoreState)
    (p : InboundPayload) (now : Int) (c : OptOutConfig)
    (hfrom : inboundFrom p ≠ "") (htext : inboundText p ≠ "")
    (hfind : configs.find?
      (fun cf => normalizeNumber cf.optoutNumber == normalizeNumber p.toN) = some c) :
    handleInboundSMS configs s p now =
      ((match classifySpec c (inboundText p) with
        | Classification.optout =>
            inboundOptoutUpdate s (normalizeNumber (inboundFrom p)) c p.toN now
        | Classification.optin =>
            inboundOptinUpdate s (normalizeNumber (inboundFrom p)) c p.toN now
        | Classification.noMatch => s), 200)
    ∧ ((splitPhrasesSpec c.optoutPhrase).any (phraseMatchesSpec (inboundText p)) = true →
        classifySpec c (inboundText p) = Classification.optout) := by
  have hcond : ¬ (inboundFrom p = "" ∨ inboundText p = "") := by
    intro h
    rcases h with h | h
    · exact hfrom h
    · exact htext h
  constructor
  · by_cases h1 : (optoutPhrasesOf c).any
        (fun phrase => inboundText p == phrase
          || jsStartsWith (inboundText p) (phrase ++ " ")) = true
    · have hb1 : (splitPhrasesSpec c.optoutPhrase).any (phraseMatchesSpec (inboundText p))
          = true := h1
      have hcls : classifySpec c (inboundText p) = Classification.optout := by
        unfold classifySpec
        rw [if_pos hb1]
      unfold handleInboundSMS
      rw [if_neg hcond]
      simp only [hfind]
      rw [if_pos h1, hcls]
    · by_cases h2 : (optinPhrasesOf c).any
          (fun phrase => inboundText p == phrase
            || jsStartsWith (inboundText p) (phrase ++ " ")) = true
      · have hb1 : ¬ ((splitPhrasesSpec c.optoutPhrase).any (phraseMatchesSpec (inboundText p))
            = true) := h1
        have hb2 : (splitPhrasesSpec c.optinPhrase).any (phraseMatchesSpec (inboundText p))
            = true := h2
        have hcls : classifySpec c (inboundText p) = Classification.optin := by
          unfold classifySpec
          rw [if_neg hb1, if_pos hb2]
        unfold handleInboundSMS
        rw [if_neg hcond]
        simp only [hfind]
        rw [if_neg h1, if_pos h2, hcls]
      · have hb1 : ¬ ((splitPhrasesSpec c.optoutPhrase).any (phraseMatchesSpec (inboundText p))
            = true) := h1
        have hb2 : ¬ ((splitPhrasesSpec c.optinPhrase).any (phraseMatchesSpec (inboundText p))
            = true) := h2
        have hcls : classifySpec c (inboundText p) = Classification.noMatch := by
          unfold classifySpec
          rw [if_neg hb1, if_neg hb2]
        unfold handleInboundSMS
        rw [if_neg hcond]
        simp only [hfind]
        rw [if_neg h1, if_neg h2, hcls]
  · intro h1
    simp [classifySpec, h1]

/-- Claim C2 witness: `"stop please"` to the configured number classifies
`OPTOUT` and the handler performs the opt-out update. -/
theorem claim_c2_witness :
    handleInboundSMS [cfgStop] (StoreState.mk [] []) payloadStop 0 =
      (inboundOptoutUpdate (StoreState.mk [] []) "447700900000" cfgStop "447418317717" 0, 200) := by
  have h := claim_c2_classification [cfgStop] (StoreState.mk [] []) payloadStop 0 cfgStop
    (by decide) (by decide) (by rfl)
  rw [h.1]
  rfl

/-- Claim C4: an inbound message that matches a config, matches no opt-out
phrase and matches an opt-in phrase always appends an `optin` history record —
also when the sender was never in the Consent Store and the removal is a
no-op. -/
theorem claim_c4_optin_history_unconditional (configs : List OptOutConfig) (s : StoreState)
    (p : InboundPayload) (now : Int) (c : OptOutConfig)
    (hfrom : inboundFrom p ≠ "") (htext : inboundText p ≠ "")
    (hfind : configs.find?
      (fun cf => normalizeNumber cf.optoutNumber == normalizeNumber p.toN) = some c)
    (hnoopt : (optoutPhrasesOf c).any
      (fun phrase => inboundText p == phrase
        || jsStartsWith (inboundText p) (phrase ++ " ")) = false)
    (hopt : (optinPhrasesOf c).any
      (fun phrase => inboundText p == phrase
        || jsStartsWith (inboundText p) (phrase ++ " ")) = true) :
    ((handleInboundSMS configs s p now).1).history
      = s.history
        ++ [HistoryEntry.mk (normalizeNumber (inboundFrom p)) "optin" now p.toN (some c.id)] := by
  have hcond : ¬ (inboundFrom p = "" ∨ inboundText p = "") := by
    intro h
    rcases h with h | h
    · exact hfrom h
    · exact htext h
  unfold handleInboundSMS
  rw [if_neg hcond, hfind]
  simp [hnoopt, hopt, inboundOptinUpdate]

/-- Claim C4 witness: `"start"` from a sender absent from the (empty) store
still appends an `optin` history record. -/
theorem claim_c4_witness :
    ((handleInboundSMS [cfgStop] (StoreState.mk [] []) payloadStart 0).1).history
      = [HistoryEntry.mk "447700900000" "optin" 0 "447418317717" (some "cfg1")] := by
  have h := claim_c4_optin_history_unconditional [cfgStop] (StoreState.mk [] [])
    payloadStart 0 cfgStop (by decide) (by decide) (by rfl) (by decide) (by decide)
  rw [h]
  rfl

/-- Claim C5: an inbound payload with missing `from` or `text`, or whose
destination matches no config, or whose text matches neither phrase list of
the matched config, leaves the store and the history unchanged, and the
endpoint still acknowledges with a bare 200. -/
theorem claim_c5_noop_frame (configs : List OptOutConfig) (s : StoreState)
    (p : InboundPayload) (now : Int)
    (h : inboundFrom p = "" ∨ inboundText p = ""
      ∨ configs.find?
          (fun cf => normalizeNumber cf.optoutNumber == normalizeNumber p.toN) = Option.none
      ∨ ∃ c, configs.find?
            (fun cf => normalizeNumber cf.optoutNumber == normalizeNumber p.toN) = some c
          ∧ (optoutPhrasesOf c).any
              (fun phrase => inboundText p == phrase
                || jsStartsWith (inboundText p) (phrase ++ " ")) = false
          ∧ (optinPhrasesOf c).any
              (fun phrase => inboundText p == phrase
                || jsStartsWith (inboundText p) (phrase ++ " ")) = false) :
    handleInboundSMS configs s p now = (s, 200) := by
  unfold handleInboundSMS
  rcases h with h | h | h | ⟨c, hfind, h1, h2⟩
  · rw [if_pos (Or.inl h)]
  · rw [if_pos (Or.inr h)]
  · by_cases hft : inboundFrom p = "" ∨ inboundText p = ""
    · rw [if_pos hft]
    · rw [if_neg hft, h]
  · by_cases hft : inboundFrom p = "" ∨ inboundText p = ""
    · rw [if_pos hft]
    · rw [if_neg hft, hfind]
      simp [h1, h2]

/-- Claim C5 witness: a message to an unconfigured destination is acknowledged
with 200 and mutates nothing. -/
theorem claim_c5_witness :
    handleInboundSMS [cfgStop] (StoreState.mk [] []) payloadUnmatched 0
      = (StoreState.mk [] [], 200) :=
  claim_c5_noop_frame [cfgStop] (StoreState.mk [] []) payloadUnmatched 0
    (Or.inr (Or.inr (Or.inl (by rfl))))

theorem bulkStep_counts (t : String → TransportOutcome) (optouts : List OptOutEntry)
    (st : BulkState) (r : String) :
    (bulkStep t optouts st r).sent.length + (bulkStep t optouts st r).blocked.length
      + (bulkStep t optouts st r).failed.length
    = st.sent.length + st.blocked.length + st.failed.length + 1 := by
  unfold bulkStep
  by_cases h1 : normalizeNumber r = ""
  · simp [h1] <;> omega
  · by_cases h2 : isBlockedIn optouts (normalizeNumber r) = true
    · simp [h1, h2] <;> omega
    · rcases htr : t (normalizeNumber r) with msgs | m
      · cases msgs with
        | nil => simp [h1, h2, htr] <;> omega
        | cons msg rest =>
          by_cases h3 : (msg.status == "0") = true
          · simp [h1, h2, htr, h3] <;> omega
          · simp [h1, h2, htr, h3] <;> omega
      · simp [h1, h2, htr] <;> omega

theorem bulk_foldl_counts (t : String → TransportOutcome) (optouts : List OptOutEntry) :
    ∀ (rs : List String) (st : BulkState),
    (rs.foldl (bulkStep t optouts) st).sent.length
      + (rs.foldl (bulkStep t optouts) st).blocked.length
      + (rs.foldl (bulkStep t optouts) st).failed.length
    = st.sent.length + st.blocked.length + st.failed.length + rs.length := by
  intro rs
  induction rs with
  | nil => intro st; simp
  | cons r rest ih =>
    intro st
    simp only [List.foldl_cons, List.length_cons]
    rw [ih (bulkStep t optouts st r)]
    have := bulkStep_counts t optouts st r
    omega

theorem bulkStep_cases (t : String → TransportOutcome) (optouts : List OptOutEntry)
    (st : BulkState) (r : String) :
    (normalizeNumber r = ""
      ∧ bulkStep t optouts st r
        = { st with failed := st.failed ++ [FailedItem.mk r (some "Invalid number") Option.none] })
    ∨ (¬ normalizeNumber r = "" ∧ isBlockedIn optouts (normalizeNumber r) = true
      ∧ bulkStep t optouts st r
        = { st with blocked := st.blocked ++ [(normalizeNumber r, "opted-out")] })
    ∨ (¬ normalizeNumber r = "" ∧ isBlockedIn optouts (normalizeNumber r) = false
      ∧ (bulkStep t optouts st r).blocked = st.blocked
      ∧ (bulkStep t optouts st r).calls = st.calls ++ [normalizeNumber r]
      ∧ (∃ f2, (bulkStep t optouts st r).failed = st.failed ++ f2)
      ∧ (∃ s2, (bulkStep t optouts st r).sent = st.sent ++ s2)) := by
  by_cases h1 : normalizeNumber r = ""
  · exact Or.inl ⟨h1, by simp [bulkStep, h1]⟩
  · by_cases h2 : isBlockedIn optouts (normalizeNumber r) = true
    · exact Or.inr (Or.inl ⟨h1, h2, by simp [bulkStep, h1, h2]⟩)
    · have h2f : isBlockedIn optouts (normalizeNumber r) = false := by
        cases hx : isBlockedIn optouts (normalizeNumber r)
        · rfl
        · exact absurd hx h2
      refine Or.inr (Or.inr ⟨h1, h2f, ?_, ?_, ?_, ?_⟩) <;>
        · unfold bulkStep
          rcases htr : t (normalizeNumber r) with msgs | m
          · cases msgs with
            | nil => simp [h1, h2f, htr]
            | cons msg rest =>
              by_cases h3 : (msg.status == "0") = true
              · simp [h1, h2f, htr, h3]
              · simp [h1, h2f, htr, h3]
          · simp [h1, h2f, htr]

theorem bulk_foldl_shape (t : String → TransportOutcome) (optouts : List OptOutEntry) :
    ∀ (rs : List String) (st : BulkState),
    ∃ s2 b2 f2 c2,
      rs.foldl (bulkStep t optouts) st
        = BulkState.mk (st.sent ++ s2) (st.blocked ++ b2) (st.failed ++ f2) (st.calls ++ c2) := by
  intro rs
  induction rs with
  | nil => intro st; exact ⟨[], [], [], [], by simp⟩
  | cons r rest ih =>
    intro st
    obtain ⟨s2, b2, f2, c2, h2⟩ := ih (bulkStep t optouts st r)
    rcases bulkStep_cases t optouts st r with ⟨h1, he⟩ | ⟨h1, hb, he⟩ |
        ⟨h1, hb, hbl, hcalls, ⟨f1, hf⟩, ⟨s1, hs⟩⟩
    · refine ⟨s2, b2, FailedItem.mk r (some "Invalid number") Option.none :: f2, c2, ?_⟩
      simp only [List.foldl_cons]
      rw [he] at h2
      rw [he, h2]
      simp
    · refine ⟨s2, (normalizeNumber r, "opted-out") :: b2, f2, c2, ?_⟩
      simp only [List.foldl_cons]
      rw [he] at h2
      rw [he, h2]
      simp
    · refine ⟨s1 ++ s2, b2, f1 ++ f2, normalizeNumber r :: c2, ?_⟩
      simp only [List.foldl_cons]
      rw [h2, BulkState.mk.injEq]
      refine ⟨?_, ?_, ?_, ?_⟩
      · rw [hs, List.append_assoc]
      · rw [hbl]
      · rw [hf, List.append_assoc]
      · rw [hcalls]
        simp

theorem bulk_invalid_mem_failed (t : String → TransportOutcome) (optouts : List OptOutEntry) :
    ∀ (rs : List String) (st : BulkState) (r : String), r ∈ rs → normalizeNumber r = "" →
    FailedItem.mk r (some "Invalid number") Option.none ∈ (rs.foldl (bulkStep t optouts) st).failed := by
  intro rs
  induction rs with
  | nil =>
    intro st r hr _
    exact absurd hr (List.not_mem_nil r)
  | cons r0 rest ih =>
    intro st r hr hn
    simp only [List.foldl_cons]
    rcases List.mem_cons.mp hr with he | hrest
    · subst he
      obtain ⟨s2, b2, f2, c2, hsh⟩ := bulk_foldl_shape t optouts rest (bulkStep t optouts st r)
      rw [hsh]
      have hstep : bulkStep t optouts st r
          = { st with failed := st.failed ++ [FailedItem.mk r (some "Invalid number") Option.none] } := by
        simp [bulkStep, hn]
      rw [hstep] at hsh ⊢
      simp
    · exact ih (bulkStep t optouts st r0) r hrest hn

theorem bulk_blocked_mem (t : String → TransportOutcome) (optouts : List OptOutEntry) :
    ∀ (rs : List String) (st : BulkState) (r : String), r ∈ rs → ¬ normalizeNumber r = "" →
    isBlockedIn optouts (normalizeNumber r) = true →
    (normalizeNumber r, "opted-out") ∈ (rs.foldl (bulkStep t optouts) st).blocked := by
  intro rs
  induction rs with
  | nil =>
    intro st r hr _ _
    exact absurd hr (List.not_mem_nil r)
  | cons r0 rest ih =>
    intro st r hr hn hbl
    simp only [List.foldl_cons]
    rcases List.mem_cons.mp hr with he | hrest
    · subst he
      obtain ⟨s2, b2, f2, c2, hsh⟩ := bulk_foldl_shape t optouts rest (bulkStep t optouts st r)
      rw [hsh]
      have hstep : bulkStep t optouts st r
          = { st with blocked := st.blocked ++ [(normalizeNumber r, "opted-out")] } := by
        simp [bulkStep, hn, hbl]
      rw [hstep] at hsh ⊢
      simp
    · exact ih (bulkStep t optouts st r0) r hrest hn hbl

theorem bulk_unblocked_called (t : String → TransportOutcome) (optouts : List OptOutEntry) :
    ∀ (rs : List String) (st : BulkState) (r : String), r ∈ rs → ¬ normalizeNumber r = "" →
    isBlockedIn optouts (normalizeNumber r) = false →
    normalizeNumber r ∈ (rs.foldl (bulkStep t optouts) st).calls := by
  intro rs
  induction rs with
  | nil =>
    intro st r hr _ _
    exact absurd hr (List.not_mem_nil r)
  | cons r0 rest ih =>
    intro st r hr hn hbl
    simp only [List.foldl_cons]
    rcases List.mem_cons.mp hr with he | hrest
    · subst he
      obtain ⟨s2, b2, f2, c2, hsh⟩ := bulk_foldl_shape t optouts rest (bulkStep t optouts st r)
      rw [hsh]
      rcases bulkStep_cases t optouts st r with ⟨h1, _⟩ | ⟨_, hb, _⟩ |
          ⟨_, _, _, hcalls, _, _⟩
      · exact absurd h1 hn
      · rw [hb] at hbl
        cases hbl
      · rw [hcalls] at hsh ⊢
        simp
    · exact ih (bulkStep t optouts st r0) r hrest hn hbl

theorem bulk_blocked_inv (t : String → TransportOutcome) (optouts : List OptOutEntry) :
    ∀ (rs : List String) (st : BulkState),
    (∀ b ∈ st.blocked, b.1 ≠ "") →
    ∀ b ∈ (rs.foldl (bulkStep t optouts) st).blocked, b.1 ≠ "" := by
  intro rs
  induction rs with
  | nil => intro st h; simpa using h
  | cons r rest ih =>
    intro st h
    simp only [List.foldl_cons]
    apply ih
    rcases bulkStep_cases t optouts st r with ⟨h1, he⟩ | ⟨h1, hb, he⟩ |
        ⟨h1, hb, hbl, _, _, _⟩
    · rw [he]
      exact h
    · rw [he]
      intro b hbm
      simp only [List.mem_append, List.mem_singleton] at hbm
      rcases hbm with hbm | hbm
      · exact h b hbm
      · rw [hbm]
        exact h1
    · intro b hbm
      rw [hbl] at hbm
      exact h b hbm

theorem bulk_calls_inv (t : String → TransportOutcome) (optouts : List OptOutEntry) :
    ∀ (rs : List String) (st : BulkState),
    (∀ c ∈ st.calls, c ≠ "" ∧ isBlockedIn optouts c = false) →
    ∀ c ∈ (rs.foldl (bulkStep t optouts) st).calls, c ≠ "" ∧ isBlockedIn optouts c = false := by
  intro rs
  induction rs with
  | nil => intro st h; simpa using h
  | cons r rest ih =>
    intro st h
    simp only [List.foldl_cons]
    apply ih
    rcases bulkStep_cases t optouts st r with ⟨h1, he⟩ | ⟨h1, hb, he⟩ |
        ⟨h1, hb, _, hcalls, _, _⟩
    · rw [he]
      exact h
    · rw [he]
      exact h
    · intro c hcm
      rw [hcalls] at hcm
      simp only [List.mem_append, List.mem_singleton] at hcm
      rcases hcm with hcm | hcm
      · exact h c hcm
      · rw [hcm]
        exact ⟨h1, hb⟩

/-- Claim C1 (amended): with configured credentials and all required fields
present, a recipient whose normalized number matches a stored entry is
rejected by every send surface without reaching the transport — `/api/send`
answers the 403 `'Number is opted out'` rejection, `/sms/json` answers the
Vonage envelope with synthetic status `'99'`, and `/api/send/bulk` puts the
recipient in the `blocked` partition and never calls the transport for it —
while an unblocked recipient is handed to the transport; on the bulk surface
both statements hold for recipients whose normalized number is nonempty (an
empty-normalizing recipient lands in `failed` without a transport call even
when it is blocked; see the counterexample). -/
theorem claim_c1_send_gate (optouts : List OptOutEntry) (creds : Credentials) (b : SendBody)
    (transport : String → TransportOutcome) (recipients : List String)
    (hk : creds.apiKey ≠ "") (hs : creds.apiSecret ≠ "")
    (hto : b.toN ≠ "") (hfrom : b.fromN ≠ "") (htext : b.text ≠ "") :
    (isBlockedIn optouts (normalizeNumber b.toN) = true →
      apiSend creds optouts b = ApiSendResult.optedOut "Number is opted out" (normalizeNumber b.toN)
      ∧ smsJson creds optouts (SmsJsonBody.mk "" "" b.toN b.fromN b.text)
          = SmsJsonResult.envelope "1"
              [VonageMsg.mk (some (normalizeNumber b.toN)) "99" Option.none
                (some "Number is opted out")])
    ∧ (isBlockedIn optouts (normalizeNumber b.toN) = false →
      apiSend creds optouts b
          = ApiSendResult.transportSend (normalizeNumber b.toN)
              (String.mk (b.fromN.data.filter Char.isDigit)) b.text
      ∧ smsJson creds optouts (SmsJsonBody.mk "" "" b.toN b.fromN b.text)
          = SmsJsonResult.forward (normalizeNumber b.toN) b.fromN b.text)
    ∧ (∀ r ∈ recipients, normalizeNumber r ≠ "" →
        isBlockedIn optouts (normalizeNumber r) = true →
        (normalizeNumber r, "opted-out") ∈ (bulkSend transport optouts recipients).blocked
        ∧ normalizeNumber r ∉ (bulkSend transport optouts recipients).calls)
    ∧ (∀ r ∈ recipients, normalizeNumber r ≠ "" →
        isBlockedIn optouts (normalizeNumber r) = false →
        normalizeNumber r ∈ (bulkSend transport optouts recipients).calls) := by
  refine ⟨?_, ?_, ?_, ?_⟩
  · intro hbl
    constructor
    · unfold apiSend
      rw [if_neg (by simp [hk, hs]), if_neg (by simp [hto, hfrom, htext]), if_pos hbl]
    · unfold smsJson
      simp only []
      rw [if_neg (by simp [hk, hs]), if_neg (by simp [hto, hfrom, htext]), if_pos hbl]
  · intro hbl
    constructor
    · unfold apiSend
      rw [if_neg (by simp [hk, hs]), if_neg (by simp [hto, hfrom, htext]),
        if_neg (by simp [hbl])]
    · unfold smsJson
      simp only []
      rw [if_neg (by simp [hk, hs]), if_neg (by simp [hto, hfrom, htext]),
        if_neg (by simp [hbl])]
  · intro r hr hn hbl
    constructor
    · exact bulk_blocked_mem transport optouts recipients (BulkState.mk [] [] [] []) r hr hn hbl
    · intro hmem
      have := bulk_calls_inv transport optouts recipients (BulkState.mk [] [] [] [])
        (by intro c hc; cases hc) (normalizeNumber r) hmem
      rw [hbl] at this
      cases this.2
  · intro r hr hn hbl
    exact bulk_unblocked_called transport optouts recipients (BulkState.mk [] [] [] []) r hr hn hbl

/-- Claim C1 witness: with `447700900000` stored, the blocked facts hold for a
differently formatted rendering of the same identity, and an unblocked number
is forwarded. -/
theorem claim_c1_witness :
    apiSend (Credentials.mk "key" "secret")
        [OptOutEntry.obj "447700900000" "manual" Option.none]
        (SendBody.mk "+44 7700 900000" "447418317717" "hi")
      = ApiSendResult.optedOut "Number is opted out" "447700900000"
    ∧ smsJson (Credentials.mk "key" "secret")
        [OptOutEntry.obj "447700900000" "manual" Option.none]
        (SmsJsonBody.mk "" "" "+44 7700 900000" "447418317717" "hi")
      = SmsJsonResult.envelope "1"
          [VonageMsg.mk (some "447700900000") "99" Option.none (some "Number is opted out")]
    ∧ ("447700900000", "opted-out")
        ∈ (bulkSend okTransport [OptOutEntry.obj "447700900000" "manual" Option.none]
            ["+44 7700 900000", "447700900001"]).blocked
    ∧ "447700900001"
        ∈ (bulkSend okTransport [OptOutEntry.obj "447700900000" "manual" Option.none]
            ["+44 7700 900000", "447700900001"]).calls := by
  have h := claim_c1_send_gate [OptOutEntry.obj "447700900000" "manual" Option.none]
    (Credentials.mk "key" "secret") (SendBody.mk "+44 7700 900000" "447418317717" "hi")
    okTransport ["+44 7700 900000", "447700900001"]
    (by decide) (by decide) (by decide) (by decide) (by decide)
  obtain ⟨h1, _, h3, h4⟩ := h
  have hb := h1 (by decide)
  refine ⟨hb.1, hb.2, ?_, ?_⟩
  · exact (h3 "+44 7700 900000" (by decide) (by decide) (by decide)).1
  · exact h4 "447700900001" (by decide) (by decide) (by decide)

/-- Claim C1 counterexample: with a stored entry whose number normalizes to
`""`, the recipient `"x"` also normalizes to `""` and so is blocked in the
sense of the claim (its normalized number equals the entry's normalized
number), yet `/api/send/bulk` reports it under `failed` with
`'Invalid number'` — not in the `blocked` partition. -/
theorem claim_c1_counterexample :
    isBlockedIn [OptOutEntry.str "."] (normalizeNumber "x") = true
    ∧ (bulkSend okTransport [OptOutEntry.str "."] ["x"]).blocked = []
    ∧ (bulkSend okTransport [OptOutEntry.str "."] ["x"]).failed
        = [FailedItem.mk "x" (some "Invalid number") Option.none]
    ∧ (bulkSend okTransport [OptOutEntry.str "."] ["x"]).calls = [] := by
  exact ⟨rfl, rfl, rfl, rfl⟩

/-- Claim C9: every bulk recipient lands in exactly one partition (the three
partition sizes sum to the recipient count and the summary reports exactly
these numbers); an empty-normalizing recipient is reported in `failed` with
`'Invalid number'`; the blocked partition never holds an empty identity, and
no transport call is ever made with one. -/
theorem claim_c9_bulk_partition (transport : String → TransportOutcome)
    (optouts : List OptOutEntry) (recipients : List String) :
    (bulkSend transport optouts recipients).sent.length
      + (bulkSend transport optouts recipients).blocked.length
      + (bulkSend transport optouts recipients).failed.length = recipients.length
    ∧ (∀ r ∈ recipients, normalizeNumber r = "" →
        FailedItem.mk r (some "Invalid number") Option.none
          ∈ (bulkSend transport optouts recipients).failed)
    ∧ (∀ b ∈ (bulkSend transport optouts recipients).blocked, b.1 ≠ "")
    ∧ (∀ c ∈ (bulkSend transport optouts recipients).calls, c ≠ "")
    ∧ bulkSummary recipients (bulkSend transport optouts recipients)
        = (recipients.length,
           (bulkSend transport optouts recipients).sent.length,
           (bulkSend transport optouts recipients).blocked.length,
           (bulkSend transport optouts recipients).failed.length) := by
  refine ⟨?_, ?_, ?_, ?_, rfl⟩
  · have := bulk_foldl_counts transport optouts recipients (BulkState.mk [] [] [] [])
    simpa [bulkSend] using this
  · intro r hr hn
    exact bulk_invalid_mem_failed transport optouts recipients (BulkState.mk [] [] [] []) r hr hn
  · exact bulk_blocked_inv transport optouts recipients (BulkState.mk [] [] [] [])
      (by intro b hb; cases hb)
  · intro c hc
    exact (bulk_calls_inv transport optouts recipients (BulkState.mk [] [] [] [])
      (by intro c2 hc2; cases hc2) c hc).1

/-- Claim C9 witness: a malformed recipient, a blocked one and a deliverable
one partition as claimed. -/
theorem claim_c9_witness :
    (bulkSend okTransport [OptOutEntry.str "447700900000"]
        ["abc", "447700900000", "447700900001"]).sent.length
      + (bulkSend okTransport [OptOutEntry.str "447700900000"]
          ["abc", "447700900000", "447700900001"]).blocked.length
      + (bulkSend okTransport [OptOutEntry.str "447700900000"]
          ["abc", "447700900000", "447700900001"]).failed.length = 3
    ∧ FailedItem.mk "abc" (some "Invalid number") Option.none
        ∈ (bulkSend okTransport [OptOutEntry.str "447700900000"]
            ["abc", "447700900000", "447700900001"]).failed := by
  have h := claim_c9_bulk_partition okTransport [OptOutEntry.str "447700900000"]
    ["abc", "447700900000", "447700900001"]
  exact ⟨h.1, h.2.1 "abc" (by decide) (by decide)⟩

theorem optinBulkStep_cases (now : Int) (acc : StoreState × OptinBulkResults) (n : String) :
    (optinBulkStep now acc n = acc)
    ∨ ((optinBulkStep now acc n).1.history
          = acc.1.history ++ [HistoryEntry.mk (normalizeNumber n) "optin" now "api" Option.none]
        ∧ (optinBulkStep now acc n).2.removed = acc.2.removed ++ [normalizeNumber n])
    ∨ ((optinBulkStep now acc n).1 = acc.1
        ∧ (optinBulkStep now acc n).2.removed = acc.2.removed) := by
  unfold optinBulkStep
  by_cases h1 : normalizeNumber n = ""
  · left
    simp [h1]
  · rcases hs : spliceFirst acc.1.optouts (normalizeNumber n) with _ | l2
    · right; right
      simp [h1, hs]
    · right; left
      simp [h1, hs]

theorem optinBulk_foldl_histlen (now : Int) :
    ∀ (ns : List String) (acc : StoreState × OptinBulkResults),
    (ns.foldl (optinBulkStep now) acc).1.history.length + acc.2.removed.length
      = acc.1.history.length + (ns.foldl (optinBulkStep now) acc).2.removed.length := by
  intro ns
  induction ns with
  | nil => intro acc; simp
  | cons n rest ih =>
    intro acc
    simp only [List.foldl_cons]
    have hrec := ih (optinBulkStep now acc n)
    rcases optinBulkStep_cases now acc n with he | ⟨hh, hr⟩ | ⟨hh, hr⟩
    · rw [he] at hrec ⊢
      exact hrec
    · rw [hh, hr] at hrec
      simp only [List.length_append, List.length_singleton] at hrec
      omega
    · rw [hh, hr] at hrec
      exact hrec

theorem optinBulk_all_absent (now : Int) :
    ∀ (ns : List String) (acc : StoreState × OptinBulkResults),
    (∀ n ∈ ns, normalizeNumber n ≠ "" ∧ isBlockedIn acc.1.optouts (normalizeNumber n) = false) →
    ns.foldl (optinBulkStep now) acc
      = (acc.1, OptinBulkResults.mk acc.2.removed (acc.2.notFound ++ ns.map normalizeNumber)) := by
  intro ns
  induction ns with
  | nil =>
    intro acc _
    simp
  | cons n rest ih =>
    intro acc h
    have hn := h n (List.mem_cons_self n rest)
    have hsp : spliceFirst acc.1.optouts (normalizeNumber n) = Option.none :=
      (spliceFirst_none_iff _ _).mpr hn.2
    have hstep : optinBulkStep now acc n
        = (acc.1, OptinBulkResults.mk acc.2.removed (acc.2.notFound ++ [normalizeNumber n])) := by
      simp [optinBulkStep, hn.1, hsp]
    rw [List.foldl_cons, hstep,
      ih (acc.1, OptinBulkResults.mk acc.2.removed (acc.2.notFound ++ [normalizeNumber n]))
        (by intro n2 hn2; exact h n2 (List.mem_cons_of_mem n hn2))]
    simp

/-- Claim C10 (amended): on the manual opt-in endpoint an `optin` history
record is appended exactly when a matching entry was present and spliced out,
and an absent number changes nothing while the endpoint still answers success;
on the bulk variant the history grows by exactly one record per removed
number, and a batch of absent numbers leaves the state unchanged with every
number reported under `notFound` — provided their normalizations are nonempty,
because the loop silently skips numbers normalizing to `''` instead of
reporting them (see the counterexample). -/
theorem claim_c10_optin_history_gated (s : StoreState) (N : String) (now : Int)
    (numbers : List String) (hne : numbers ≠ []) :
    (spliceFirst s.optouts (normalizeNumber N) = Option.none → apiOptin s N now = (s, true))
    ∧ (∀ rest, spliceFirst s.optouts (normalizeNumber N) = some rest →
        apiOptin s N now
          = (StoreState.mk rest
              (s.history
                ++ [HistoryEntry.mk (normalizeNumber N) "optin" now "manual" Option.none]), true))
    ∧ (∀ st res, apiOptinBulk s numbers now = some (st, res) →
        st.history.length = s.history.length + res.removed.length)
    ∧ ((∀ n ∈ numbers, normalizeNumber n ≠ "" ∧ isBlockedIn s.optouts (normalizeNumber n) = false) →
        apiOptinBulk s numbers now
          = some (s, OptinBulkResults.mk [] (numbers.map normalizeNumber))) := by
  refine ⟨?_, ?_, ?_, ?_⟩
  · intro h
    simp [apiOptin, h]
  · intro rest h
    simp [apiOptin, h]
  · intro st res h
    rw [apiOptinBulk, if_neg hne] at h
    have hfold := optinBulk_foldl_histlen now numbers (s, OptinBulkResults.mk [] [])
    rcases Option.some.injEq _ _ ▸ h with h2
    have h2 := Option.some.inj h
    rw [h2] at hfold
    simpa using hfold
  · intro h
    rw [apiOptinBulk, if_neg hne]
    rw [optinBulk_all_absent now numbers (s, OptinBulkResults.mk [] []) (by exact h)]
    simp

/-- Claim C10 witness: an absent (nonempty-normalizing) number leaves the
store untouched on both endpoints; bulk reports it under `notFound`. -/
theorem claim_c10_witness :
    apiOptin (StoreState.mk [OptOutEntry.obj "447700900000" "manual" Option.none] [])
        "555" 0
      = (StoreState.mk [OptOutEntry.obj "447700900000" "manual" Option.none] [], true)
    ∧ apiOptinBulk (StoreState.mk [OptOutEntry.obj "447700900000" "manual" Option.none] [])
        ["447700900123"] 0
      = some (StoreState.mk [OptOutEntry.obj "447700900000" "manual" Option.none] [],
          OptinBulkResults.mk [] ["447700900123"]) := by
  have h := claim_c10_optin_history_gated
    (StoreState.mk [OptOutEntry.obj "447700900000" "manual" Option.none] [])
    "555" 0 ["447700900123"] (by decide)
  refine ⟨h.1 (by rfl), ?_⟩
  have h4 := h.2.2.2 (by decide)
  rw [h4]
  rfl

/-- Claim C10 counterexample: `"abc"` normalizes to `""` and is absent from
the (empty) store, yet `POST /api/optin/bulk` reports nothing under
`notFound` — the loop skips it before the lookup, where the claim promises it
would be reported. -/
theorem claim_c10_counterexample :
    apiOptinBulk (StoreState.mk [] []) ["abc"] 0
      = some (StoreState.mk [] [], OptinBulkResults.mk [] [])
    ∧ normalizeNumber "abc" = ""
    ∧ spliceFirst ([] : List OptOutEntry) (normalizeNumber "abc") = Option.none := by
  exact ⟨rfl, rfl, rfl⟩

theorem apiHistory_eq_sorted_filter (history : List HistoryEntry) (sd ed : Option Int)
    (act : Option String) :
    apiHistory history sd ed act
      = List.insertionSort histGE (history.filter (fun e =>
          (match sd with
           | Option.none => true
           | some d => decide (dayStartMs d ≤ e.timestamp))
          && (match ed with
              | Option.none => true
              | some d => decide (e.timestamp ≤ dayEndMs d))
          && (match act with
              | Option.none => true
              | some a => if a ≠ "" ∧ a ≠ "all" then e.action == a else true))) := by
  unfold apiHistory
  rcases sd with _ | d1 <;> rcases ed with _ | d2 <;> rcases act with _ | a
  all_goals
    first
    | (by_cases hA : a ≠ "" ∧ a ≠ "all" <;>
        simp [hA, List.filter_filter, Bool.and_comm, Bool.and_assoc, Bool.and_left_comm])
    | simp [List.filter_filter, Bool.and_comm, Bool.and_assoc, Bool.and_left_comm]

/-- Claim C8 (amended): the history query returns a permutation of exactly the
entries passing the floored `startDate` lower bound (when given), the
ceilinged `endDate` upper bound (when given) and the `action` equality filter
(when given, non-empty, and not `'all'` — an empty `action` parameter is
falsy and therefore ignored like an absent one; see the counterexample),
sorted descending by timestamp. -/
theorem claim_c8_history_query (history : List HistoryEntry) (sd ed : Option Int)
    (act : Option String) :
    (apiHistory history sd ed act).Perm
      (history.filter (fun e =>
        (match sd with
         | Option.none => true
         | some d => decide (dayStartMs d ≤ e.timestamp))
        && (match ed with
            | Option.none => true
            | some d => decide (e.timestamp ≤ dayEndMs d))
        && (match act with
            | Option.none => true
            | some a => if a ≠ "" ∧ a ≠ "all" then e.action == a else true)))
    ∧ List.Sorted histGE (apiHistory history sd ed act) := by
  constructor
  · rw [apiHistory_eq_sorted_filter]
    exact List.perm_insertionSort histGE _
  · rw [apiHistory_eq_sorted_filter]
    exact List.sorted_insertionSort histGE _

/-- Claim C8 counterexample: with the `action` parameter given as the empty
string, the claim's exact-match filter would return no entry (the stored entry
has action `"optin" ≠ ""`), but the endpoint ignores the falsy parameter and
returns the entry. -/
theorem claim_c8_counterexample :
    apiHistory [histEntry1] Option.none Option.none (some "") = [histEntry1]
    ∧ histEntry1.action ≠ "" := by
  exact ⟨rfl, by decide⟩

end OptOut
